import Mathlib

/-!
Verification of the jobsense webhook tool adapters.

This file shallowly embeds the two LangChain tool adapters of the repository
(`N8NTool`, the structured variant, and `JobSearchTool`, the free-text
variant): configuration resolution at construction, zod input validation,
outbound HTTP request construction, and the response/error mapping of the
single `axios.post` call inside `_call`.

JavaScript values flowing through the adapters are modelled by the `Json`
inductive below; `undefined`/`null` configuration sources are modelled by
`Option`; the HTTP layer is modelled by a `transport` function from the
outbound request to an axios outcome (a 2xx response, or a rejection
carrying an error code, an optional non-2xx response, a message and a
constructor name), so that each adapter's `_call` becomes a pure function
of its input and the transport.
-/

/-- A JSON/JavaScript value, as produced and consumed by the adapters.
Numbers are modelled as integers (only integral numbers occur in the code:
timeouts, HTTP status codes, salary bounds). -/
inductive Json where
  | null : Json
  | bool : Bool → Json
  | num : Int → Json
  | str : String → Json
  | arr : List Json → Json
  | obj : List (String × Json) → Json
deriving Repr

/-- The `typeof`-style type name zod reports in its error messages. -/
def Json.typeName : Json → String
  | Json.null => "null"
  | Json.bool _ => "boolean"
  | Json.num _ => "number"
  | Json.str _ => "string"
  | Json.arr _ => "array"
  | Json.obj _ => "object"

/-- Field lookup on a JSON object (first binding wins, as JS keys are unique). -/
def Json.getField : Json → String → Option Json
  | Json.obj fs, k => fs.lookup k
  | _, _ => none

def Json.isStr : Json → Bool
  | Json.str _ => true
  | _ => false

def Json.isNum : Json → Bool
  | Json.num _ => true
  | _ => false

def Json.isBool : Json → Bool
  | Json.bool _ => true
  | _ => false

/-- Escape one character as inside a JSON string literal. -/
def escapeChar (c : Char) : String :=
  if c = '"' then "\\\""
  else if c = '\\' then "\\\\"
  else if c = '\n' then "\\n"
  else if c = '\r' then "\\r"
  else if c = '\t' then "\\t"
  else String.singleton c

def escapeStr (s : String) : String :=
  String.join (s.data.map escapeChar)

def jsonQuote (s : String) : String :=
  "\"" ++ escapeStr s ++ "\""

def indentOf (n : Nat) : String :=
  String.join (List.replicate n " ")

mutual

/-- Rendering of `JSON.stringify(v, null, 2)` at a given nesting depth. -/
def Json.render (depth : Nat) : Json → String
  | Json.null => "null"
  | Json.bool true => "true"
  | Json.bool false => "false"
  | Json.num n => toString n
  | Json.str s => jsonQuote s
  | Json.arr [] => "[]"
  | Json.arr (x :: xs) =>
      "[\n" ++ Json.renderItems (depth + 1) (x :: xs) ++ "\n" ++
        indentOf (2 * depth) ++ "]"
  | Json.obj [] => "\x7b\x7d"
  | Json.obj (f :: fs) =>
      "\x7b\n" ++ Json.renderFields (depth + 1) (f :: fs) ++ "\n" ++
        indentOf (2 * depth) ++ "\x7d"

def Json.renderItems (depth : Nat) : List Json → String
  | [] => ""
  | [x] => indentOf (2 * depth) ++ Json.render depth x
  | x :: y :: xs =>
      indentOf (2 * depth) ++ Json.render depth x ++ ",\n" ++
        Json.renderItems depth (y :: xs)

def Json.renderFields (depth : Nat) : List (String × Json) → String
  | [] => ""
  | [(k, v)] => indentOf (2 * depth) ++ jsonQuote k ++ ": " ++ Json.render depth v
  | (k, v) :: f :: fs =>
      indentOf (2 * depth) ++ jsonQuote k ++ ": " ++ Json.render depth v ++ ",\n" ++
        Json.renderFields depth (f :: fs)

end

/-- The string `JSON.stringify(v, null, 2)` returned by the adapters. -/
def Json.pretty (j : Json) : String :=
  Json.render 0 j

example : Json.pretty (Json.obj [("a", Json.num 1)]) = "\x7b\n  \"a\": 1\n\x7d" := by
  simp only [Json.pretty, Json.render, Json.renderFields]
  decide

/-- JavaScript nullish coalescing `a ?? b`: `none` models `undefined`/`null`. -/
def jsNullish {α : Type} (a b : Option α) : Option α :=
  match a with
  | some x => some x
  | none => b

/-- JavaScript truthiness of a string-or-nullish value: `undefined`, `null`
and `""` are falsy, all other strings truthy. -/
def jsTruthyStr : Option String → Bool
  | none => false
  | some s => s != ""

/-- JavaScript `v || d` for a string-or-undefined `v` (used for
`workflow_name || 'default'`): falsy values (`undefined`, `""`) yield `d`. -/
def jsOrDefault (v : Option String) (d : String) : String :=
  match v with
  | none => d
  | some s => if s = "" then d else s

/-- The resolved timeout `fields.N8N_TIMEOUT ?? env N8N_TIMEOUT ?? 30000`:
a number from constructor fields, a raw string from the environment, or the
numeric default 30000. -/
inductive TimeoutVal where
  | num : Int → TimeoutVal
  | str : String → TimeoutVal
deriving Repr, DecidableEq

/-- The timeout value as it appears inside a JSON envelope. -/
def TimeoutVal.toJson : TimeoutVal → Json
  | TimeoutVal.num n => Json.num n
  | TimeoutVal.str s => Json.str s

/-- The timeout value as interpolated into a template string. -/
def TimeoutVal.text : TimeoutVal → String
  | TimeoutVal.num n => toString n
  | TimeoutVal.str s => s

/-- Resolution `fields[envVarTimeout] ?? getEnvironmentVariable(envVarTimeout) ?? 30000`. -/
def resolveTimeout (f : Option Int) (e : Option String) : TimeoutVal :=
  match f with
  | some n => TimeoutVal.num n
  | none =>
    match e with
    | some s => TimeoutVal.str s
    | none => TimeoutVal.num 30000

/-- One zod validation issue: a field path and a violation message. -/
structure Issue where
  path : List String
  message : String
deriving Repr, DecidableEq

/-- The error text built in `_call`:
`issues.map(issue => issue.path.join('.') + ': ' + issue.message).join(', ')`. -/
def formatIssues (issues : List Issue) : String :=
  String.intercalate ", "
    (issues.map (fun i => String.intercalate "." i.path ++ ": " ++ i.message))

/-- A single invalid-type issue in zod's message format. -/
def typeIssue (path : List String) (expected : String) (v : Json) : List Issue :=
  [⟨path, "Expected " ++ expected ++ ", received " ++ v.typeName⟩]

/-- The constructor `fields` object: each key the adapters read, with `none`
for a key that is absent (or `null`/`undefined`). -/
structure ToolFields where
  N8N_JOB_SEARCH_WEBHOOK_URL : Option String
  N8N_WEBHOOK_URL : Option String
  N8N_API_KEY : Option String
  N8N_TIMEOUT : Option Int
  override : Option Bool
deriving Repr, DecidableEq

/-- The process environment as read through `getEnvironmentVariable`:
every variable is a string when set. -/
structure EnvVars where
  N8N_JOB_SEARCH_WEBHOOK_URL : Option String
  N8N_WEBHOOK_URL : Option String
  N8N_API_KEY : Option String
  N8N_TIMEOUT : Option String
deriving Repr, DecidableEq

/-- The outbound HTTP request handed to `axios.post`: the (possibly
`undefined`) URL, the headers, the JSON body, and the request timeout. -/
structure Request where
  url : Option String
  headers : List (String × String)
  body : Json
  reqTimeout : TimeoutVal
deriving Repr

/-- An HTTP response as seen through axios (`status`, `statusText`, `data`). -/
structure HttpResponse where
  status : Int
  statusText : String
  data : Json
deriving Repr

/-- An axios rejection: the error `code` (when set), the `message`, the
attached non-2xx `response` (when the server answered), and
`error.constructor.name`. -/
structure AxiosErr where
  code : Option String
  message : String
  response : Option HttpResponse
  ctorName : String
deriving Repr

/-- The outcome of the awaited `axios.post`: it resolves exactly on a 2xx
response (axios's default `validateStatus`) and rejects otherwise. -/
inductive AxiosOutcome where
  | success : HttpResponse → AxiosOutcome
  | failure : AxiosErr → AxiosOutcome
deriving Repr

/-- The headers built inside `_call`: `Content-Type` always, and
`Authorization: Bearer <key>` exactly when `this.apiKey` is truthy. -/
def buildHeaders (apiKey : Option String) : List (String × String) :=
  if jsTruthyStr apiKey then
    [("Content-Type", "application/json"),
     ("Authorization", "Bearer " ++ apiKey.getD "")]
  else
    [("Content-Type", "application/json")]

/-- Adapter state after construction (the fields of the `N8NTool` class that
`_call` reads; the class is immutable after its constructor runs). -/
structure N8NTool where
  override : Bool
  webhookUrl : Option String
  apiKey : Option String
  timeout : TimeoutVal
deriving Repr

/-- Endpoint resolution of the structured adapter:
`fields[N8N_WEBHOOK_URL] ?? getEnvironmentVariable(N8N_WEBHOOK_URL)`. -/
def N8NTool.resolveUrl (f : ToolFields) (e : EnvVars) : Option String :=
  jsNullish f.N8N_WEBHOOK_URL e.N8N_WEBHOOK_URL

/-- The configuration error thrown by the `N8NTool` constructor. -/
def N8NTool.missingUrlMessage : String :=
  "Missing N8N_WEBHOOK_URL environment variable. " ++
  "Please configure your N8N webhook URL in the environment settings."

/-- The `N8NTool` constructor: resolve configuration, then throw when the
override flag is falsy and the resolved webhook URL is falsy. -/
def N8NTool.construct (f : ToolFields) (e : EnvVars) : Except String N8NTool :=
  let override := f.override.getD false
  let webhookUrl := N8NTool.resolveUrl f e
  let apiKey := jsNullish f.N8N_API_KEY e.N8N_API_KEY
  let timeout := resolveTimeout f.N8N_TIMEOUT e.N8N_TIMEOUT
  if !override && !(jsTruthyStr webhookUrl) then
    Except.error N8NTool.missingUrlMessage
  else
    Except.ok ⟨override, webhookUrl, apiKey, timeout⟩

/-- One optional primitive field of the inner `workflow_data` zod object:
no issue when absent, a type issue when present with the wrong type. -/
def checkPrim (wd : List (String × Json)) (name expected : String)
    (ok : Json → Bool) : List Issue :=
  match wd.lookup name with
  | none => []
  | some v => if ok v then [] else typeIssue ["workflow_data", name] expected v

/-- Element-wise check of `skills: z.array(z.string())`, with zod's numeric
indices in the issue path. -/
def checkSkillItems : List Json → Nat → List Issue
  | [], _ => []
  | x :: xs, i =>
    (match x with
     | Json.str _ => []
     | v => typeIssue ["workflow_data", "skills", toString i] "string" v) ++
    checkSkillItems xs (i + 1)

/-- The optional `skills` field: must be an array of strings when present. -/
def checkSkills (wd : List (String × Json)) : List Issue :=
  match wd.lookup "skills" with
  | none => []
  | some (Json.arr xs) => checkSkillItems xs 0
  | some v => typeIssue ["workflow_data", "skills"] "array" v

/-- All issues of the inner `workflow_data` object schema, in zod's shape
order; unknown keys pass through unvalidated (`.passthrough()`). -/
def checkWorkflowData (wd : List (String × Json)) : List Issue :=
  checkPrim wd "position" "string" Json.isStr ++
  checkPrim wd "location" "string" Json.isStr ++
  checkSkills wd ++
  checkPrim wd "experience_level" "string" Json.isStr ++
  checkPrim wd "job_type" "string" Json.isStr ++
  checkPrim wd "salary_min" "number" Json.isNum ++
  checkPrim wd "salary_max" "number" Json.isNum ++
  checkPrim wd "remote" "boolean" Json.isBool

/-- The parse result of the structured adapter's schema: the (passthrough)
`workflow_data` object and the optional `workflow_name`. -/
structure N8NParsed where
  workflow_data : Json
  workflow_name : Option String
deriving Repr

/-- `this.schema.safeParse(input)` of the structured adapter: a top-level
object with a required `workflow_data` object (with typed optional fields,
passthrough for the rest) and an optional string `workflow_name`. -/
def N8NTool.safeParse (input : Json) : Except (List Issue) N8NParsed :=
  match input with
  | Json.obj fs =>
    let wdIssues :=
      match fs.lookup "workflow_data" with
      | some (Json.obj wd) => checkWorkflowData wd
      | some v => typeIssue ["workflow_data"] "object" v
      | none => [⟨["workflow_data"], "Required"⟩]
    let wnIssues :=
      match fs.lookup "workflow_name" with
      | none => []
      | some (Json.str _) => []
      | some v => typeIssue ["workflow_name"] "string" v
    match wdIssues ++ wnIssues with
    | [] =>
      Except.ok ⟨(fs.lookup "workflow_data").getD Json.null,
        match fs.lookup "workflow_name" with
        | some (Json.str s) => some s
        | _ => none⟩
    | i :: rest => Except.error (i :: rest)
  | v => Except.error [⟨[], "Expected object, received " ++ v.typeName⟩]

/-- The body posted by the structured adapter:
`{ data, workflow, timestamp, source: 'librechat' }`; an `undefined`
`workflow` is dropped from the serialized body. -/
def N8NTool.requestBody (wd : Json) (wn : Option String) (tsReq : String) : Json :=
  Json.obj ([("data", wd)] ++
    (match wn with
     | some n => [("workflow", Json.str n)]
     | none => []) ++
    [("timestamp", Json.str tsReq), ("source", Json.str "librechat")])

/-- The full outbound request of `axios.post` in the structured adapter. -/
def N8NTool.mkRequest (t : N8NTool) (wd : Json) (wn : Option String)
    (tsReq : String) : Request :=
  ⟨t.webhookUrl, buildHeaders t.apiKey, N8NTool.requestBody wd wn tsReq, t.timeout⟩

/-- The success envelope of the structured adapter,
`{ success: true, workflow: workflow_name || 'default', result, executedAt, status }`. -/
def N8NTool.successEnvelope (wn : Option String) (resp : HttpResponse)
    (tsExec : String) : Json :=
  Json.obj [("success", Json.bool true),
    ("workflow", Json.str (jsOrDefault wn "default")),
    ("result", resp.data),
    ("executedAt", Json.str tsExec),
    ("status", Json.num resp.status)]

/-- Failure envelope for `error.code === 'ECONNABORTED'` (timeout). -/
def N8NTool.timeoutEnvelope (t : N8NTool) : Json :=
  Json.obj [("success", Json.bool false),
    ("error", Json.str "Workflow execution timeout"),
    ("message", Json.str ("The N8N workflow did not complete within " ++
      t.timeout.text ++ "ms. The workflow may still be running on N8N.")),
    ("timeout", t.timeout.toJson)]

/-- Failure envelope for `ENOTFOUND`/`ECONNREFUSED`; an `undefined`
`webhookUrl` is dropped from the serialized envelope. -/
def N8NTool.unreachableEnvelope (t : N8NTool) : Json :=
  Json.obj ([("success", Json.bool false),
    ("error", Json.str "Cannot reach N8N server"),
    ("message", Json.str ("Unable to connect to the N8N webhook URL. " ++
      "Please check your N8N instance is running and the URL is correct."))] ++
    (match t.webhookUrl with
     | some u => [("webhookUrl", Json.str u)]
     | none => []))

/-- Failure envelope for an error carrying a non-2xx `error.response`. -/
def N8NTool.upstreamEnvelope (e : AxiosErr) (r : HttpResponse) : Json :=
  Json.obj [("success", Json.bool false),
    ("error", Json.str "N8N workflow execution failed"),
    ("message", Json.str e.message),
    ("status", Json.num r.status),
    ("statusText", Json.str r.statusText),
    ("details", r.data)]

/-- Failure envelope of the final catch-all branch. -/
def N8NTool.unknownEnvelope (e : AxiosErr) : Json :=
  Json.obj [("success", Json.bool false),
    ("error", Json.str "Unknown error occurred"),
    ("message", Json.str e.message),
    ("type", Json.str e.ctorName)]

/-- The catch block of `N8NTool._call`, branch for branch. -/
def N8NTool.handleError (t : N8NTool) (e : AxiosErr) : Json :=
  if e.code = some "ECONNABORTED" then
    N8NTool.timeoutEnvelope t
  else if e.code = some "ENOTFOUND" ∨ e.code = some "ECONNREFUSED" then
    N8NTool.unreachableEnvelope t
  else
    match e.response with
    | some r => N8NTool.upstreamEnvelope e r
    | none => N8NTool.unknownEnvelope e

/-- Mapping of the awaited axios outcome to the returned string: the success
envelope on 2xx, the catch block's envelope otherwise — all pretty-printed. -/
def N8NTool.respond (t : N8NTool) (wn : Option String) (tsExec : String) :
    AxiosOutcome → String
  | AxiosOutcome.success resp => Json.pretty (N8NTool.successEnvelope wn resp tsExec)
  | AxiosOutcome.failure e => Json.pretty (N8NTool.handleError t e)

/-- `N8NTool._call`: validate (throwing `Input validation failed: ...` on a
schema violation), then post `mkRequest` through the transport and map the
outcome with `respond`. `tsReq`/`tsExec` are the two `new Date().toISOString()`
readings. -/
def N8NTool.call (t : N8NTool) (input : Json) (tsReq tsExec : String)
    (transport : Request → AxiosOutcome) : Except String String :=
  match N8NTool.safeParse input with
  | Except.error issues =>
      Except.error ("Input validation failed: " ++ formatIssues issues)
  | Except.ok parsed =>
      Except.ok (N8NTool.respond t parsed.workflow_name tsExec
        (transport (N8NTool.mkRequest t parsed.workflow_data parsed.workflow_name tsReq)))

/-- Adapter state after construction of the free-text `JobSearchTool` class. -/
structure JobSearchTool where
  override : Bool
  webhookUrl : Option String
  apiKey : Option String
  timeout : TimeoutVal
deriving Repr

/-- Endpoint resolution of the free-text adapter, left to right:
`fields[N8N_JOB_SEARCH_WEBHOOK_URL] ?? getEnvironmentVariable(N8N_JOB_SEARCH_WEBHOOK_URL)
?? fields[N8N_WEBHOOK_URL] ?? getEnvironmentVariable(N8N_WEBHOOK_URL)`. -/
def JobSearchTool.resolveUrl (f : ToolFields) (e : EnvVars) : Option String :=
  jsNullish (jsNullish (jsNullish f.N8N_JOB_SEARCH_WEBHOOK_URL
    e.N8N_JOB_SEARCH_WEBHOOK_URL) f.N8N_WEBHOOK_URL) e.N8N_WEBHOOK_URL

/-- The configuration error thrown by the `JobSearchTool` constructor. -/
def JobSearchTool.missingUrlMessage : String :=
  "Missing N8N_JOB_SEARCH_WEBHOOK_URL or N8N_WEBHOOK_URL environment variable. " ++
  "Please configure your N8N job search webhook URL in the environment settings."

/-- The `JobSearchTool` constructor. -/
def JobSearchTool.construct (f : ToolFields) (e : EnvVars) : Except String JobSearchTool :=
  let override := f.override.getD false
  let webhookUrl := JobSearchTool.resolveUrl f e
  let apiKey := jsNullish f.N8N_API_KEY e.N8N_API_KEY
  let timeout := resolveTimeout f.N8N_TIMEOUT e.N8N_TIMEOUT
  if !override && !(jsTruthyStr webhookUrl) then
    Except.error JobSearchTool.missingUrlMessage
  else
    Except.ok ⟨override, webhookUrl, apiKey, timeout⟩

/-- `this.schema.safeParse(input)` of the free-text adapter: a top-level
object with a required `query` of type `z.string()` — note the schema has no
non-emptiness constraint. -/
def JobSearchTool.safeParse (input : Json) : Except (List Issue) String :=
  match input with
  | Json.obj fs =>
    match fs.lookup "query" with
    | some (Json.str s) => Except.ok s
    | some v => Except.error (typeIssue ["query"] "string" v)
    | none => Except.error [⟨["query"], "Required"⟩]
  | v => Except.error [⟨[], "Expected object, received " ++ v.typeName⟩]

/-- The outbound request of the free-text adapter: body `{ query }` only. -/
def JobSearchTool.mkRequest (t : JobSearchTool) (query : String) : Request :=
  ⟨t.webhookUrl, buildHeaders t.apiKey, Json.obj [("query", Json.str query)], t.timeout⟩

/-- Failure envelope for `error.code === 'ECONNABORTED'` (timeout). -/
def JobSearchTool.timeoutEnvelope (t : JobSearchTool) : Json :=
  Json.obj [("success", Json.bool false),
    ("error", Json.str "Job search timeout"),
    ("message", Json.str ("The job search did not complete within " ++
      t.timeout.text ++ "ms. Please try again with more specific criteria.")),
    ("timeout", t.timeout.toJson)]

/-- Failure envelope for `ENOTFOUND`/`ECONNREFUSED`; an `undefined`
`webhookUrl` is dropped from the serialized envelope. -/
def JobSearchTool.unreachableEnvelope (t : JobSearchTool) : Json :=
  Json.obj ([("success", Json.bool false),
    ("error", Json.str "Cannot reach job search service"),
    ("message", Json.str ("Unable to connect to the job search service. " ++
      "Please try again later."))] ++
    (match t.webhookUrl with
     | some u => [("webhookUrl", Json.str u)]
     | none => []))

/-- Failure envelope for an error carrying a non-2xx `error.response`. -/
def JobSearchTool.upstreamEnvelope (e : AxiosErr) (r : HttpResponse) : Json :=
  Json.obj [("success", Json.bool false),
    ("error", Json.str "Job search failed"),
    ("message", Json.str e.message),
    ("status", Json.num r.status),
    ("statusText", Json.str r.statusText),
    ("details", r.data)]

/-- Failure envelope of the final catch-all branch. -/
def JobSearchTool.unknownEnvelope (e : AxiosErr) : Json :=
  Json.obj [("success", Json.bool false),
    ("error", Json.str "Unknown error occurred"),
    ("message", Json.str e.message),
    ("type", Json.str e.ctorName)]

/-- The catch block of `JobSearchTool._call`, branch for branch. -/
def JobSearchTool.handleError (t : JobSearchTool) (e : AxiosErr) : Json :=
  if e.code = some "ECONNABORTED" then
    JobSearchTool.timeoutEnvelope t
  else if e.code = some "ENOTFOUND" ∨ e.code = some "ECONNREFUSED" then
    JobSearchTool.unreachableEnvelope t
  else
    match e.response with
    | some r => JobSearchTool.upstreamEnvelope e r
    | none => JobSearchTool.unknownEnvelope e

/-- Mapping of the awaited axios outcome to the returned string: on 2xx the
upstream body is pretty-printed verbatim (`JSON.stringify(response.data, null, 2)`,
no envelope); otherwise the catch block's envelope. -/
def JobSearchTool.respond (t : JobSearchTool) : AxiosOutcome → String
  | AxiosOutcome.success resp => Json.pretty resp.data
  | AxiosOutcome.failure e => Json.pretty (JobSearchTool.handleError t e)

/-- `JobSearchTool._call`: validate (throwing `Input validation failed: ...`
on a schema violation), then post `{ query }` through the transport and map
the outcome with `respond`. -/
def JobSearchTool.call (t : JobSearchTool) (input : Json)
    (transport : Request → AxiosOutcome) : Except String String :=
  match JobSearchTool.safeParse input with
  | Except.error issues =>
      Except.error ("Input validation failed: " ++ formatIssues issues)
  | Except.ok q =>
      Except.ok (JobSearchTool.respond t (transport (JobSearchTool.mkRequest t q)))

/-- Empty environment: no N8N variable set. -/
def envEmpty : EnvVars := ⟨none, none, none, none⟩

/-- A concrete structured adapter instance (50ms timeout, API key set). -/
def n8nSample : N8NTool :=
  ⟨false, some "https://n8n.example.com/webhook/jobs", some "secret-key", TimeoutVal.num 50⟩

/-- A concrete free-text adapter instance (50ms timeout, no API key). -/
def jobSample : JobSearchTool :=
  ⟨false, some "https://n8n.example.com/webhook/job-search", none, TimeoutVal.num 50⟩

/-- A schema-valid structured input. -/
def n8nOkInput : Json :=
  Json.obj [("workflow_data", Json.obj [("position", Json.str "Engineer")])]

/-- A schema-valid free-text input. -/
def jobOkInput : Json := Json.obj [("query", Json.str "x")]

/-- A mock endpoint that answers 200 with `{ data: <request body's data field> }`. -/
def echoTransport : Request → AxiosOutcome :=
  fun r => AxiosOutcome.success ⟨200, "OK", Json.obj [("data", (r.body.getField "data").getD Json.null)]⟩

/-- The axios rejection produced when the request exceeds its timeout. -/
def timeoutErr : AxiosErr :=
  ⟨some "ECONNABORTED", "timeout of 50ms exceeded", none, "AxiosError"⟩

/-- A mock endpoint that never answers within the timeout. -/
def timeoutTransport : Request → AxiosOutcome :=
  fun _ => AxiosOutcome.failure timeoutErr

/-- A concrete upstream payload `{"jobs":[1,2,3]}`. -/
def jobsBody : Json := Json.obj [("jobs", Json.arr [Json.num 1, Json.num 2, Json.num 3])]

/-- A mock endpoint that answers 200 with `jobsBody`. -/
def jobsTransport : Request → AxiosOutcome :=
  fun _ => AxiosOutcome.success ⟨200, "OK", jobsBody⟩

/-- Every branch of the structured adapter's catch block carries `success: false`. -/
theorem n8n_handleError_success_false (t : N8NTool) (e : AxiosErr) :
    (N8NTool.handleError t e).getField "success" = some (Json.bool false) := by
  by_cases h1 : e.code = some "ECONNABORTED"
  · simp only [N8NTool.handleError, if_pos h1]
    rfl
  · by_cases h2 : e.code = some "ENOTFOUND" ∨ e.code = some "ECONNREFUSED"
    · simp only [N8NTool.handleError, if_neg h1, if_pos h2]
      rfl
    · cases h3 : e.response with
      | some r =>
        simp only [N8NTool.handleError, if_neg h1, if_neg h2, h3]
        rfl
      | none =>
        simp only [N8NTool.handleError, if_neg h1, if_neg h2, h3]
        rfl

/-- The structured adapter's catch block always yields one of the four
taxonomy envelopes. -/
theorem n8n_handleError_taxonomy (t : N8NTool) (e : AxiosErr) :
    N8NTool.handleError t e = N8NTool.timeoutEnvelope t ∨
    N8NTool.handleError t e = N8NTool.unreachableEnvelope t ∨
    (∃ r, e.response = some r ∧ N8NTool.handleError t e = N8NTool.upstreamEnvelope e r) ∨
    N8NTool.handleError t e = N8NTool.unknownEnvelope e := by
  by_cases h1 : e.code = some "ECONNABORTED"
  · exact Or.inl (by simp only [N8NTool.handleError, if_pos h1])
  · by_cases h2 : e.code = some "ENOTFOUND" ∨ e.code = some "ECONNREFUSED"
    · exact Or.inr (Or.inl (by simp only [N8NTool.handleError, if_neg h1, if_pos h2]))
    · cases h3 : e.response with
      | some r =>
        exact Or.inr (Or.inr (Or.inl ⟨r, rfl,
          by simp only [N8NTool.handleError, if_neg h1, if_neg h2, h3]⟩))
      | none =>
        exact Or.inr (Or.inr (Or.inr
          (by simp only [N8NTool.handleError, if_neg h1, if_neg h2, h3])))

/-- Every branch of the free-text adapter's catch block carries `success: false`. -/
theorem jobsearch_handleError_success_false (t : JobSearchTool) (e : AxiosErr) :
    (JobSearchTool.handleError t e).getField "success" = some (Json.bool false) := by
  by_cases h1 : e.code = some "ECONNABORTED"
  · simp only [JobSearchTool.handleError, if_pos h1]
    rfl
  · by_cases h2 : e.code = some "ENOTFOUND" ∨ e.code = some "ECONNREFUSED"
    · simp only [JobSearchTool.handleError, if_neg h1, if_pos h2]
      rfl
    · cases h3 : e.response with
      | some r =>
        simp only [JobSearchTool.handleError, if_neg h1, if_neg h2, h3]
        rfl
      | none =>
        simp only [JobSearchTool.handleError, if_neg h1, if_neg h2, h3]
        rfl

/-- The free-text adapter's catch block always yields one of the four
taxonomy envelopes. -/
theorem jobsearch_handleError_taxonomy (t : JobSearchTool) (e : AxiosErr) :
    JobSearchTool.handleError t e = JobSearchTool.timeoutEnvelope t ∨
    JobSearchTool.handleError t e = JobSearchTool.unreachableEnvelope t ∨
    (∃ r, e.response = some r ∧ JobSearchTool.handleError t e = JobSearchTool.upstreamEnvelope e r) ∨
    JobSearchTool.handleError t e = JobSearchTool.unknownEnvelope e := by
  by_cases h1 : e.code = some "ECONNABORTED"
  · exact Or.inl (by simp only [JobSearchTool.handleError, if_pos h1])
  · by_cases h2 : e.code = some "ENOTFOUND" ∨ e.code = some "ECONNREFUSED"
    · exact Or.inr (Or.inl (by simp only [JobSearchTool.handleError, if_neg h1, if_pos h2]))
    · cases h3 : e.response with
      | some r =>
        exact Or.inr (Or.inr (Or.inl ⟨r, rfl,
          by simp only [JobSearchTool.handleError, if_neg h1, if_neg h2, h3]⟩))
      | none =>
        exact Or.inr (Or.inr (Or.inr
          (by simp only [JobSearchTool.handleError, if_neg h1, if_neg h2, h3])))

/-- Valid structured input makes `_call` run the transport on `mkRequest`
and return `respond` of the outcome. -/
theorem n8n_call_valid (t : N8NTool) (input : Json) (wd : Json)
    (wn : Option String) (tsReq tsExec : String)
    (transport : Request → AxiosOutcome)
    (hv : N8NTool.safeParse input = Except.ok ⟨wd, wn⟩) :
    N8NTool.call t input tsReq tsExec transport
      = Except.ok (N8NTool.respond t wn tsExec
          (transport (N8NTool.mkRequest t wd wn tsReq))) := by
  simp only [N8NTool.call, hv]

/-- Valid free-text input makes `_call` run the transport on `mkRequest`
and return `respond` of the outcome. -/
theorem jobsearch_call_valid (t : JobSearchTool) (input : Json) (q : String)
    (transport : Request → AxiosOutcome)
    (hv : JobSearchTool.safeParse input = Except.ok q) :
    JobSearchTool.call t input transport
      = Except.ok (JobSearchTool.respond t (transport (JobSearchTool.mkRequest t q))) := by
  simp only [JobSearchTool.call, hv]

/-- C2: for the free-text variant, for every invocation whose query
validates and whose HTTP POST succeeds (2xx), `_call` returns the upstream
response body verbatim, pretty-printed (`JSON.stringify(response.data, null, 2)`),
with no envelope wrapped around it. -/
theorem jobsearch_success_returns_upstream_body_verbatim
    (t : JobSearchTool) (input : Json) (q : String)
    (transport : Request → AxiosOutcome) (resp : HttpResponse)
    (hv : JobSearchTool.safeParse input = Except.ok q)
    (ht : transport (JobSearchTool.mkRequest t q) = AxiosOutcome.success resp) :
    JobSearchTool.call t input transport = Except.ok (Json.pretty resp.data) := by
  rw [jobsearch_call_valid t input q transport hv, ht]
  rfl

/-- Witness for C2: the spec's own test — against a mock answering
`{"jobs":[1,2,3]}`, invoking with `{query:"x"}` returns exactly that body,
pretty-printed. -/
theorem jobsearch_success_returns_upstream_body_verbatim_witness :
    JobSearchTool.call jobSample jobOkInput jobsTransport
      = Except.ok (Json.pretty jobsBody) :=
  jobsearch_success_returns_upstream_body_verbatim jobSample jobOkInput "x"
    jobsTransport ⟨200, "OK", jobsBody⟩ rfl rfl

/-- C3 (amended): for the structured variant, a validated invocation whose
POST succeeds returns the pretty-printed envelope
`{success: true, workflow: workflow_name || 'default', result: <upstream body>,
executedAt, status}`; the request body's `data` field is the validated
criteria, so an endpoint echoing it inside `{data: ...}` yields an envelope
whose `result.data` equals the criteria. (The `workflow` field is the given
name only when that name is truthy; an empty string also maps to `"default"`.) -/
theorem n8n_success_envelope_shape
    (t : N8NTool) (input : Json) (wd : Json) (wn : Option String)
    (tsReq tsExec : String) (transport : Request → AxiosOutcome) (resp : HttpResponse)
    (hv : N8NTool.safeParse input = Except.ok ⟨wd, wn⟩)
    (ht : transport (N8NTool.mkRequest t wd wn tsReq) = AxiosOutcome.success resp) :
    N8NTool.call t input tsReq tsExec transport
      = Except.ok (Json.pretty (Json.obj [("success", Json.bool true),
          ("workflow", Json.str (jsOrDefault wn "default")),
          ("result", resp.data),
          ("executedAt", Json.str tsExec),
          ("status", Json.num resp.status)]))
    ∧ (N8NTool.requestBody wd wn tsReq).getField "data" = some wd
    ∧ (∀ c, resp.data = Json.obj [("data", c)] →
        ((N8NTool.successEnvelope wn resp tsExec).getField "result").bind
          (fun r => Json.getField r "data") = some c) := by
  refine ⟨?_, rfl, ?_⟩
  · rw [n8n_call_valid t input wd wn tsReq tsExec transport hv, ht]
    rfl
  · intro c hc
    simp only [N8NTool.successEnvelope, hc]
    rfl

/-- Witness for C3: invoking the sample adapter against the echo endpoint
wraps `{data: <criteria>}` in the success envelope, and the envelope's
`result.data` is the criteria passed in. -/
theorem n8n_success_envelope_shape_witness :
    N8NTool.call n8nSample n8nOkInput "T0" "T1" echoTransport
      = Except.ok (Json.pretty (Json.obj [("success", Json.bool true),
          ("workflow", Json.str "default"),
          ("result", Json.obj [("data", Json.obj [("position", Json.str "Engineer")])]),
          ("executedAt", Json.str "T1"),
          ("status", Json.num 200)]))
    ∧ ((N8NTool.successEnvelope none
          ⟨200, "OK", Json.obj [("data", Json.obj [("position", Json.str "Engineer")])]⟩
          "T1").getField "result").bind (fun r => Json.getField r "data")
        = some (Json.obj [("position", Json.str "Engineer")]) := by
  have h := n8n_success_envelope_shape n8nSample n8nOkInput
    (Json.obj [("position", Json.str "Engineer")]) none "T0" "T1" echoTransport
    ⟨200, "OK", Json.obj [("data", Json.obj [("position", Json.str "Engineer")])]⟩
    rfl rfl
  exact ⟨h.1, h.2.2 (Json.obj [("position", Json.str "Engineer")]) rfl⟩

/-- Counterexample for C3: a given-but-empty `workflow_name` is replaced by
`"default"` in the returned envelope (`workflow_name || 'default'` treats the
empty string as falsy), so the envelope's `workflow` is not the given name. -/
theorem n8n_empty_workflow_name_counterexample :
    N8NTool.safeParse
        (Json.obj [("workflow_data", Json.obj []), ("workflow_name", Json.str "")])
      = Except.ok ⟨Json.obj [], some ""⟩
    ∧ N8NTool.call n8nSample
        (Json.obj [("workflow_data", Json.obj []), ("workflow_name", Json.str "")])
        "T0" "T1" echoTransport
      = Except.ok (Json.pretty (N8NTool.successEnvelope (some "")
          ⟨200, "OK", Json.obj [("data", Json.obj [])]⟩ "T1"))
    ∧ (N8NTool.successEnvelope (some "")
          ⟨200, "OK", Json.obj [("data", Json.obj [])]⟩ "T1").getField "workflow"
        = some (Json.str "default")
    ∧ Json.str "default" ≠ Json.str "" := by
  refine ⟨rfl, rfl, rfl, ?_⟩
  intro h
  injection h with h'
  exact absurd h' (by decide)

/-- C1: for both adapters, once the input passes schema validation, `_call`
never throws for any transport or upstream failure: whatever the axios
outcome, it returns a string, and on any rejection that string is the
pretty-printed catch-block envelope, which carries `success: false` and is
one of the four taxonomy branches (timeout, unreachable, upstream non-2xx,
unknown). -/
theorem calls_return_failure_envelopes_never_raise :
    (∀ (t : N8NTool) (input : Json) (wd : Json) (wn : Option String)
       (tsReq tsExec : String) (transport : Request → AxiosOutcome),
      N8NTool.safeParse input = Except.ok ⟨wd, wn⟩ →
      ∃ s, N8NTool.call t input tsReq tsExec transport = Except.ok s ∧
        ∀ e, transport (N8NTool.mkRequest t wd wn tsReq) = AxiosOutcome.failure e →
          s = Json.pretty (N8NTool.handleError t e) ∧
          (N8NTool.handleError t e).getField "success" = some (Json.bool false) ∧
          (N8NTool.handleError t e = N8NTool.timeoutEnvelope t ∨
           N8NTool.handleError t e = N8NTool.unreachableEnvelope t ∨
           (∃ r, e.response = some r ∧
             N8NTool.handleError t e = N8NTool.upstreamEnvelope e r) ∨
           N8NTool.handleError t e = N8NTool.unknownEnvelope e))
    ∧ (∀ (t : JobSearchTool) (input : Json) (q : String)
        (transport : Request → AxiosOutcome),
      JobSearchTool.safeParse input = Except.ok q →
      ∃ s, JobSearchTool.call t input transport = Except.ok s ∧
        ∀ e, transport (JobSearchTool.mkRequest t q) = AxiosOutcome.failure e →
          s = Json.pretty (JobSearchTool.handleError t e) ∧
          (JobSearchTool.handleError t e).getField "success" = some (Json.bool false) ∧
          (JobSearchTool.handleError t e = JobSearchTool.timeoutEnvelope t ∨
           JobSearchTool.handleError t e = JobSearchTool.unreachableEnvelope t ∨
           (∃ r, e.response = some r ∧
             JobSearchTool.handleError t e = JobSearchTool.upstreamEnvelope e r) ∨
           JobSearchTool.handleError t e = JobSearchTool.unknownEnvelope e)) := by
  constructor
  · intro t input wd wn tsReq tsExec transport hv
    refine ⟨N8NTool.respond t wn tsExec (transport (N8NTool.mkRequest t wd wn tsReq)),
      n8n_call_valid t input wd wn tsReq tsExec transport hv, ?_⟩
    intro e he
    rw [he]
    exact ⟨rfl, n8n_handleError_success_false t e, n8n_handleError_taxonomy t e⟩
  · intro t input q transport hv
    refine ⟨JobSearchTool.respond t (transport (JobSearchTool.mkRequest t q)),
      jobsearch_call_valid t input q transport hv, ?_⟩
    intro e he
    rw [he]
    exact ⟨rfl, jobsearch_handleError_success_false t e,
      jobsearch_handleError_taxonomy t e⟩

/-- Witness for C1: with a timing-out endpoint, both sample adapters still
return (`Except.ok`) rather than throw. -/
theorem calls_return_failure_envelopes_never_raise_witness :
    (∃ s, N8NTool.call n8nSample n8nOkInput "T0" "T1" timeoutTransport = Except.ok s)
    ∧ (∃ s, JobSearchTool.call jobSample jobOkInput timeoutTransport = Except.ok s) := by
  constructor
  · obtain ⟨s, hs, _⟩ := calls_return_failure_envelopes_never_raise.1 n8nSample
      n8nOkInput (Json.obj [("position", Json.str "Engineer")]) none "T0" "T1"
      timeoutTransport rfl
    exact ⟨s, hs⟩
  · obtain ⟨s, hs, _⟩ := calls_return_failure_envelopes_never_raise.2 jobSample
      jobOkInput "x" timeoutTransport rfl
    exact ⟨s, hs⟩

/-- C5: for the structured variant, any input failing the schema makes
`_call` throw the validation error — whose message appends each offending
field path to its violation reason, comma-joined — identically for every
transport, so no HTTP call is observable. -/
theorem n8n_validation_error_format_no_network
    (t : N8NTool) (input : Json) (issues : List Issue) (tsReq tsExec : String)
    (hv : N8NTool.safeParse input = Except.error issues) :
    ∀ transport, N8NTool.call t input tsReq tsExec transport
      = Except.error ("Input validation failed: " ++ formatIssues issues) := by
  intro transport
  simp only [N8NTool.call, hv]

/-- Witness for C5: a non-object `workflow_data` and a numeric
`workflow_name` produce the comma-joined two-issue message, independent of
the transport. -/
theorem n8n_validation_error_format_no_network_witness :
    N8NTool.call n8nSample
        (Json.obj [("workflow_data", Json.str "oops"), ("workflow_name", Json.num 7)])
        "T0" "T1" echoTransport
      = Except.error ("Input validation failed: " ++ formatIssues
          [⟨["workflow_data"], "Expected object, received string"⟩,
           ⟨["workflow_name"], "Expected string, received number"⟩])
    ∧ N8NTool.call n8nSample
        (Json.obj [("workflow_data", Json.str "oops"), ("workflow_name", Json.num 7)])
        "T0" "T1" echoTransport
      = N8NTool.call n8nSample
        (Json.obj [("workflow_data", Json.str "oops"), ("workflow_name", Json.num 7)])
        "T0" "T1" timeoutTransport := by
  constructor
  · exact n8n_validation_error_format_no_network n8nSample
      (Json.obj [("workflow_data", Json.str "oops"), ("workflow_name", Json.num 7)])
      [⟨["workflow_data"], "Expected object, received string"⟩,
       ⟨["workflow_name"], "Expected string, received number"⟩] "T0" "T1" rfl echoTransport
  · rw [n8n_validation_error_format_no_network n8nSample
        (Json.obj [("workflow_data", Json.str "oops"), ("workflow_name", Json.num 7)])
        [⟨["workflow_data"], "Expected object, received string"⟩,
         ⟨["workflow_name"], "Expected string, received number"⟩] "T0" "T1" rfl echoTransport,
      n8n_validation_error_format_no_network n8nSample
        (Json.obj [("workflow_data", Json.str "oops"), ("workflow_name", Json.num 7)])
        [⟨["workflow_data"], "Expected object, received string"⟩,
         ⟨["workflow_name"], "Expected string, received number"⟩] "T0" "T1" rfl timeoutTransport]

/-- C6 (amended): the free-text variant throws a validation error — in the
same message format as the structured variant — for every input whose
`query` is absent or not a string; every input whose `query` is a string,
including the empty string, passes validation and proceeds to the HTTP call
(the schema is `z.string()` with no non-emptiness constraint). -/
theorem jobsearch_validation_behavior :
    (∀ (t : JobSearchTool) (input : Json) (issues : List Issue)
       (transport : Request → AxiosOutcome),
      JobSearchTool.safeParse input = Except.error issues →
      JobSearchTool.call t input transport
        = Except.error ("Input validation failed: " ++ formatIssues issues))
    ∧ (∀ (input : Json), input.getField "query" = none →
        ∃ issues, JobSearchTool.safeParse input = Except.error issues)
    ∧ (∀ (input : Json) (v : Json), input.getField "query" = some v →
        v.isStr = false →
        ∃ issues, JobSearchTool.safeParse input = Except.error issues)
    ∧ (∀ (input : Json) (s : String), input.getField "query" = some (Json.str s) →
        JobSearchTool.safeParse input = Except.ok s)
    ∧ (∀ (t : JobSearchTool) (input : Json) (s : String)
        (transport : Request → AxiosOutcome),
        input.getField "query" = some (Json.str s) →
        JobSearchTool.call t input transport
          = Except.ok (JobSearchTool.respond t (transport (JobSearchTool.mkRequest t s)))) := by
  refine ⟨?_, ?_, ?_, ?_, ?_⟩
  · intro t input issues transport hv
    simp only [JobSearchTool.call, hv]
  · intro input h
    cases input with
    | obj fs =>
      simp only [Json.getField] at h
      exact ⟨[⟨["query"], "Required"⟩], by simp only [JobSearchTool.safeParse, h]⟩
    | null => exact ⟨_, rfl⟩
    | bool b => exact ⟨_, rfl⟩
    | num n => exact ⟨_, rfl⟩
    | str s => exact ⟨_, rfl⟩
    | arr xs => exact ⟨_, rfl⟩
  · intro input v h hstr
    cases input with
    | obj fs =>
      simp only [Json.getField] at h
      cases v with
      | str s => exact Bool.noConfusion hstr
      | null => exact ⟨typeIssue ["query"] "string" Json.null,
          by simp only [JobSearchTool.safeParse, h]⟩
      | bool b => exact ⟨typeIssue ["query"] "string" (Json.bool b),
          by simp only [JobSearchTool.safeParse, h]⟩
      | num n => exact ⟨typeIssue ["query"] "string" (Json.num n),
          by simp only [JobSearchTool.safeParse, h]⟩
      | arr xs => exact ⟨typeIssue ["query"] "string" (Json.arr xs),
          by simp only [JobSearchTool.safeParse, h]⟩
      | obj gs => exact ⟨typeIssue ["query"] "string" (Json.obj gs),
          by simp only [JobSearchTool.safeParse, h]⟩
    | null => exact Option.noConfusion h
    | bool b => exact Option.noConfusion h
    | num n => exact Option.noConfusion h
    | str s => exact Option.noConfusion h
    | arr xs => exact Option.noConfusion h
  · intro input s h
    cases input with
    | obj fs =>
      simp only [Json.getField] at h
      simp only [JobSearchTool.safeParse, h]
    | null => exact Option.noConfusion h
    | bool b => exact Option.noConfusion h
    | num n => exact Option.noConfusion h
    | str s2 => exact Option.noConfusion h
    | arr xs => exact Option.noConfusion h
  · intro t input s transport h
    cases input with
    | obj fs =>
      simp only [Json.getField] at h
      simp only [JobSearchTool.call, JobSearchTool.safeParse, h]
    | null => exact Option.noConfusion h
    | bool b => exact Option.noConfusion h
    | num n => exact Option.noConfusion h
    | str s2 => exact Option.noConfusion h
    | arr xs => exact Option.noConfusion h

/-- Witness for C6: a missing `query` throws the formatted validation error;
`{query:"x"}` proceeds to the HTTP call. -/
theorem jobsearch_validation_behavior_witness :
    JobSearchTool.call jobSample (Json.obj []) jobsTransport
      = Except.error ("Input validation failed: " ++ formatIssues [⟨["query"], "Required"⟩])
    ∧ JobSearchTool.call jobSample jobOkInput jobsTransport
      = Except.ok (JobSearchTool.respond jobSample
          (jobsTransport (JobSearchTool.mkRequest jobSample "x"))) := by
  constructor
  · exact jobsearch_validation_behavior.1 jobSample (Json.obj [])
      [⟨["query"], "Required"⟩] jobsTransport rfl
  · exact jobsearch_validation_behavior.2.2.2.2 jobSample jobOkInput "x" jobsTransport rfl

/-- Counterexample for C6: the claim says an empty-string `query` raises a
validation error, but the schema is plain `z.string()`: `{query: ""}`
validates and `_call` proceeds to the HTTP POST and returns the upstream
body. -/
theorem jobsearch_empty_query_not_rejected :
    JobSearchTool.safeParse (Json.obj [("query", Json.str "")]) = Except.ok ""
    ∧ JobSearchTool.call jobSample (Json.obj [("query", Json.str "")]) jobsTransport
      = Except.ok (Json.pretty jobsBody) := ⟨rfl, rfl⟩

/-- C4 (amended): for both adapters, construction fails synchronously with
the configuration error whenever the override flag is falsy and the
resolved endpoint value — the first non-nullish source in the `??` cascade —
is absent or empty; in particular it fails when no source is set at all.
Construction succeeds whenever the resolved (first non-nullish) value is a
non-empty string. (An empty string in an earlier source shadows later
sources, so a resolvable non-empty URL in a later source does not prevent
the failure.) -/
theorem construction_endpoint_requirement :
    (∀ (f : ToolFields) (e : EnvVars), f.override.getD false = false →
      jsTruthyStr (N8NTool.resolveUrl f e) = false →
      N8NTool.construct f e = Except.error N8NTool.missingUrlMessage)
    ∧ (∀ (f : ToolFields) (e : EnvVars), jsTruthyStr (N8NTool.resolveUrl f e) = true →
      ∃ t, N8NTool.construct f e = Except.ok t)
    ∧ (∀ (f : ToolFields) (e : EnvVars), f.N8N_WEBHOOK_URL = none →
      e.N8N_WEBHOOK_URL = none → f.override.getD false = false →
      N8NTool.construct f e = Except.error N8NTool.missingUrlMessage)
    ∧ (∀ (f : ToolFields) (e : EnvVars), f.override.getD false = false →
      jsTruthyStr (JobSearchTool.resolveUrl f e) = false →
      JobSearchTool.construct f e = Except.error JobSearchTool.missingUrlMessage)
    ∧ (∀ (f : ToolFields) (e : EnvVars), jsTruthyStr (JobSearchTool.resolveUrl f e) = true →
      ∃ t, JobSearchTool.construct f e = Except.ok t)
    ∧ (∀ (f : ToolFields) (e : EnvVars), f.N8N_JOB_SEARCH_WEBHOOK_URL = none →
      e.N8N_JOB_SEARCH_WEBHOOK_URL = none → f.N8N_WEBHOOK_URL = none →
      e.N8N_WEBHOOK_URL = none → f.override.getD false = false →
      JobSearchTool.construct f e = Except.error JobSearchTool.missingUrlMessage) := by
  refine ⟨?_, ?_, ?_, ?_, ?_, ?_⟩
  · intro f e h1 h2
    simp only [N8NTool.construct, h1, h2]
    rfl
  · intro f e h2
    refine ⟨⟨f.override.getD false, N8NTool.resolveUrl f e,
      jsNullish f.N8N_API_KEY e.N8N_API_KEY,
      resolveTimeout f.N8N_TIMEOUT e.N8N_TIMEOUT⟩, ?_⟩
    simp [N8NTool.construct, h2]
  · intro f e hf he h1
    have h2 : jsTruthyStr (N8NTool.resolveUrl f e) = false := by
      simp only [N8NTool.resolveUrl, hf, he, jsNullish, jsTruthyStr]
    simp only [N8NTool.construct, h1, h2]
    rfl
  · intro f e h1 h2
    simp only [JobSearchTool.construct, h1, h2]
    rfl
  · intro f e h2
    refine ⟨⟨f.override.getD false, JobSearchTool.resolveUrl f e,
      jsNullish f.N8N_API_KEY e.N8N_API_KEY,
      resolveTimeout f.N8N_TIMEOUT e.N8N_TIMEOUT⟩, ?_⟩
    simp [JobSearchTool.construct, h2]
  · intro f e hjf hje hf he h1
    have h2 : jsTruthyStr (JobSearchTool.resolveUrl f e) = false := by
      simp only [JobSearchTool.resolveUrl, hjf, hje, hf, he, jsNullish, jsTruthyStr]
    simp only [JobSearchTool.construct, h1, h2]
    rfl

/-- Witness for C4: with nothing configured both constructors throw; with a
non-empty constructor URL the structured constructor succeeds. -/
theorem construction_endpoint_requirement_witness :
    N8NTool.construct ⟨none, none, none, none, none⟩ envEmpty
      = Except.error N8NTool.missingUrlMessage
    ∧ JobSearchTool.construct ⟨none, none, none, none, none⟩ envEmpty
      = Except.error JobSearchTool.missingUrlMessage
    ∧ (∃ t, N8NTool.construct
        ⟨none, some "https://n8n.example.com/webhook/jobs", none, none, none⟩ envEmpty
      = Except.ok t) := by
  refine ⟨?_, ?_, ?_⟩
  · exact construction_endpoint_requirement.1 ⟨none, none, none, none, none⟩ envEmpty rfl rfl
  · exact construction_endpoint_requirement.2.2.2.1 ⟨none, none, none, none, none⟩
      envEmpty rfl rfl
  · exact construction_endpoint_requirement.2.1
      ⟨none, some "https://n8n.example.com/webhook/jobs", none, none, none⟩ envEmpty rfl

/-- Counterexample for C4: an endpoint URL is resolvable from the
environment, the override flag is not set, and construction still throws —
the empty string passed as the constructor field is non-nullish, so the
`??` cascade stops at it and the truthiness check then fails. -/
theorem construction_empty_string_shadows :
    N8NTool.construct ⟨none, some "", none, none, none⟩
        ⟨none, some "https://n8n.example.com/webhook/jobs", none, none⟩
      = Except.error N8NTool.missingUrlMessage
    ∧ ("https://n8n.example.com/webhook/jobs" : String) ≠ "" := by
  exact ⟨rfl, by decide⟩

/-- C7 (amended): the free-text adapter resolves its endpoint at
construction in the order: query-specific constructor field, then the
query-specific environment variable, then the generic constructor field,
then the generic environment variable — the first non-nullish (defined)
source wins, even when it is the empty string; the resolved value is stored
as the adapter's webhook URL. -/
theorem jobsearch_url_resolution_order :
    (∀ (f : ToolFields) (e : EnvVars) (t : JobSearchTool),
      JobSearchTool.construct f e = Except.ok t →
      t.webhookUrl = JobSearchTool.resolveUrl f e)
    ∧ (∀ (f : ToolFields) (e : EnvVars),
      JobSearchTool.resolveUrl f e =
        match f.N8N_JOB_SEARCH_WEBHOOK_URL with
        | some v => some v
        | none =>
          match e.N8N_JOB_SEARCH_WEBHOOK_URL with
          | some v => some v
          | none =>
            match f.N8N_WEBHOOK_URL with
            | some v => some v
            | none => e.N8N_WEBHOOK_URL) := by
  constructor
  · intro f e t h
    simp only [JobSearchTool.construct] at h
    split at h
    · exact Except.noConfusion h
    · injection h with h'
      rw [← h']
  · intro f e
    cases hf : f.N8N_JOB_SEARCH_WEBHOOK_URL with
    | some v => simp only [JobSearchTool.resolveUrl, hf, jsNullish]
    | none =>
      cases he : e.N8N_JOB_SEARCH_WEBHOOK_URL with
      | some v => simp only [JobSearchTool.resolveUrl, hf, he, jsNullish]
      | none =>
        cases hf2 : f.N8N_WEBHOOK_URL with
        | some v => simp only [JobSearchTool.resolveUrl, hf, he, hf2, jsNullish]
        | none => simp only [JobSearchTool.resolveUrl, hf, he, hf2, jsNullish]

/-- Witness for C7: a concrete construction whose stored URL is the
resolution cascade's value. -/
theorem jobsearch_url_resolution_order_witness :
    (⟨false, some "https://a.example/hook", none, TimeoutVal.num 30000⟩ : JobSearchTool).webhookUrl
      = JobSearchTool.resolveUrl ⟨some "https://a.example/hook", none, none, none, none⟩ envEmpty
    ∧ JobSearchTool.resolveUrl ⟨some "https://a.example/hook", none, none, none, none⟩ envEmpty
      = some "https://a.example/hook" := by
  constructor
  · exact jobsearch_url_resolution_order.1
      ⟨some "https://a.example/hook", none, none, none, none⟩ envEmpty
      ⟨false, some "https://a.example/hook", none, TimeoutVal.num 30000⟩ rfl
  · exact (jobsearch_url_resolution_order.2
      ⟨some "https://a.example/hook", none, none, none, none⟩ envEmpty).trans rfl

/-- Counterexample for C7: the claim puts the environment variables before
the constructor fields and says the first non-empty source wins; in the
code the constructor field precedes its environment variable, and an empty
string (non-nullish but empty) also wins the cascade. -/
theorem jobsearch_url_order_counterexample :
    (∃ t, JobSearchTool.construct
        ⟨some "https://ctor.example/a", none, none, none, none⟩
        ⟨some "https://env.example/b", none, none, none⟩ = Except.ok t
      ∧ t.webhookUrl = some "https://ctor.example/a")
    ∧ ("https://ctor.example/a" : String) ≠ "https://env.example/b"
    ∧ (∃ t, JobSearchTool.construct
        ⟨some "", none, none, none, some true⟩
        ⟨some "https://env.example/b", none, none, none⟩ = Except.ok t
      ∧ t.webhookUrl = some "")
    ∧ ("" : String) ≠ "https://env.example/b" := by
  exact ⟨⟨⟨false, some "https://ctor.example/a", none, TimeoutVal.num 30000⟩, rfl, rfl⟩,
    by decide,
    ⟨⟨true, some "", none, TimeoutVal.num 30000⟩, rfl, rfl⟩,
    by decide⟩

/-- C8: for both adapters, when the request exceeds the configured timeout
(axios rejects with code `ECONNABORTED`), `_call` returns the pretty-printed
timeout envelope `{success:false, error:<timeout message>, message, timeout}`,
whose `timeout` field is exactly the configured timeout value; and the
timeout resolution defaults to 30000 when neither the constructor field nor
the environment variable provides one. -/
theorem timeout_envelope_and_default :
    (∀ (t : N8NTool) (input : Json) (wd : Json) (wn : Option String)
       (tsReq tsExec : String) (transport : Request → AxiosOutcome) (e : AxiosErr),
      N8NTool.safeParse input = Except.ok ⟨wd, wn⟩ →
      transport (N8NTool.mkRequest t wd wn tsReq) = AxiosOutcome.failure e →
      e.code = some "ECONNABORTED" →
      N8NTool.call t input tsReq tsExec transport
        = Except.ok (Json.pretty (N8NTool.timeoutEnvelope t))
      ∧ (N8NTool.timeoutEnvelope t).getField "timeout" = some t.timeout.toJson)
    ∧ (∀ (t : JobSearchTool) (input : Json) (q : String)
        (transport : Request → AxiosOutcome) (e : AxiosErr),
      JobSearchTool.safeParse input = Except.ok q →
      transport (JobSearchTool.mkRequest t q) = AxiosOutcome.failure e →
      e.code = some "ECONNABORTED" →
      JobSearchTool.call t input transport
        = Except.ok (Json.pretty (JobSearchTool.timeoutEnvelope t))
      ∧ (JobSearchTool.timeoutEnvelope t).getField "timeout" = some t.timeout.toJson)
    ∧ resolveTimeout none none = TimeoutVal.num 30000 := by
  refine ⟨?_, ?_, rfl⟩
  · intro t input wd wn tsReq tsExec transport e hv ht hc
    refine ⟨?_, rfl⟩
    rw [n8n_call_valid t input wd wn tsReq tsExec transport hv, ht]
    simp only [N8NTool.respond, N8NTool.handleError, if_pos hc]
  · intro t input q transport e hv ht hc
    refine ⟨?_, rfl⟩
    rw [jobsearch_call_valid t input q transport hv, ht]
    simp only [JobSearchTool.respond, JobSearchTool.handleError, if_pos hc]

/-- Witness for C8: the sample adapters (configured timeout 50) against the
timing-out endpoint return their timeout envelopes, whose `timeout` field
is 50; and the no-configuration default is 30000. -/
theorem timeout_envelope_and_default_witness :
    N8NTool.call n8nSample n8nOkInput "T0" "T1" timeoutTransport
      = Except.ok (Json.pretty (N8NTool.timeoutEnvelope n8nSample))
    ∧ (N8NTool.timeoutEnvelope n8nSample).getField "timeout" = some (Json.num 50)
    ∧ JobSearchTool.call jobSample jobOkInput timeoutTransport
      = Except.ok (Json.pretty (JobSearchTool.timeoutEnvelope jobSample))
    ∧ (JobSearchTool.timeoutEnvelope jobSample).getField "timeout" = some (Json.num 50)
    ∧ resolveTimeout none none = TimeoutVal.num 30000 := by
  have h1 := timeout_envelope_and_default.1 n8nSample n8nOkInput
    (Json.obj [("position", Json.str "Engineer")]) none "T0" "T1"
    timeoutTransport timeoutErr rfl rfl rfl
  have h2 := timeout_envelope_and_default.2.1 jobSample jobOkInput "x"
    timeoutTransport timeoutErr rfl rfl rfl
  exact ⟨h1.1, h1.2, h2.1, h2.2, timeout_envelope_and_default.2.2⟩

/-- C9: for both adapters, the outbound request carries
`Authorization: Bearer <key>` when an API key is configured (a truthy
string) and omits the header entirely when none is configured; and every
validated invocation hands exactly `mkRequest` to the transport. -/
theorem authorization_header_presence :
    (∀ (t : N8NTool) (wd : Json) (wn : Option String) (tsReq : String) (k : String),
      t.apiKey = some k → k ≠ "" →
      (N8NTool.mkRequest t wd wn tsReq).headers
        = [("Content-Type", "application/json"), ("Authorization", "Bearer " ++ k)])
    ∧ (∀ (t : N8NTool) (wd : Json) (wn : Option String) (tsReq : String),
      t.apiKey = none →
      (N8NTool.mkRequest t wd wn tsReq).headers = [("Content-Type", "application/json")])
    ∧ (∀ (t : JobSearchTool) (q : String) (k : String),
      t.apiKey = some k → k ≠ "" →
      (JobSearchTool.mkRequest t q).headers
        = [("Content-Type", "application/json"), ("Authorization", "Bearer " ++ k)])
    ∧ (∀ (t : JobSearchTool) (q : String),
      t.apiKey = none →
      (JobSearchTool.mkRequest t q).headers = [("Content-Type", "application/json")])
    ∧ (∀ (t : N8NTool) (input : Json) (wd : Json) (wn : Option String)
        (tsReq tsExec : String) (transport : Request → AxiosOutcome),
      N8NTool.safeParse input = Except.ok ⟨wd, wn⟩ →
      N8NTool.call t input tsReq tsExec transport
        = Except.ok (N8NTool.respond t wn tsExec
            (transport (N8NTool.mkRequest t wd wn tsReq))))
    ∧ (∀ (t : JobSearchTool) (input : Json) (q : String)
        (transport : Request → AxiosOutcome),
      JobSearchTool.safeParse input = Except.ok q →
      JobSearchTool.call t input transport
        = Except.ok (JobSearchTool.respond t (transport (JobSearchTool.mkRequest t q)))) := by
  refine ⟨?_, ?_, ?_, ?_, n8n_call_valid, jobsearch_call_valid⟩
  · intro t wd wn tsReq k hk hne
    simp [N8NTool.mkRequest, buildHeaders, jsTruthyStr, hk, hne]
  · intro t wd wn tsReq hk
    simp [N8NTool.mkRequest, buildHeaders, jsTruthyStr, hk]
  · intro t q k hk hne
    simp [JobSearchTool.mkRequest, buildHeaders, jsTruthyStr, hk, hne]
  · intro t q hk
    simp [JobSearchTool.mkRequest, buildHeaders, jsTruthyStr, hk]

/-- Witness for C9: the sample structured adapter (key `secret-key`) sends
the bearer header; the sample free-text adapter (no key) omits it. -/
theorem authorization_header_presence_witness :
    (N8NTool.mkRequest n8nSample (Json.obj []) none "T0").headers
      = [("Content-Type", "application/json"), ("Authorization", "Bearer secret-key")]
    ∧ (JobSearchTool.mkRequest jobSample "x").headers
      = [("Content-Type", "application/json")]
    ∧ N8NTool.call n8nSample n8nOkInput "T0" "T1" echoTransport
      = Except.ok (N8NTool.respond n8nSample none "T1"
          (echoTransport (N8NTool.mkRequest n8nSample
            (Json.obj [("position", Json.str "Engineer")]) none "T0"))) := by
  refine ⟨?_, ?_, ?_⟩
  · exact authorization_header_presence.1 n8nSample (Json.obj []) none "T0"
      "secret-key" rfl (by decide)
  · exact authorization_header_presence.2.2.2.1 jobSample "x" rfl
  · exact authorization_header_presence.2.2.2.2.1 n8nSample n8nOkInput
      (Json.obj [("position", Json.str "Engineer")]) none "T0" "T1" echoTransport rfl

/-- C10: with the override flag set to true, construction never throws —
whatever the URL configuration — and stores the cascade's resolved value
(possibly `undefined`); a later validated invocation performs no further
endpoint check and hands the transport a POST whose URL is that stored
(possibly `undefined`) value. -/
theorem override_true_skips_endpoint_validation :
    (∀ (f : ToolFields) (e : EnvVars), f.override = some true →
      ∃ t, N8NTool.construct f e = Except.ok t
        ∧ t.webhookUrl = N8NTool.resolveUrl f e
        ∧ ∀ (input : Json) (wd : Json) (wn : Option String) (tsReq tsExec : String)
            (transport : Request → AxiosOutcome),
          N8NTool.safeParse input = Except.ok ⟨wd, wn⟩ →
          (N8NTool.mkRequest t wd wn tsReq).url = N8NTool.resolveUrl f e
          ∧ N8NTool.call t input tsReq tsExec transport
            = Except.ok (N8NTool.respond t wn tsExec
                (transport (N8NTool.mkRequest t wd wn tsReq))))
    ∧ (∀ (f : ToolFields) (e : EnvVars), f.override = some true →
      ∃ t, JobSearchTool.construct f e = Except.ok t
        ∧ t.webhookUrl = JobSearchTool.resolveUrl f e
        ∧ ∀ (input : Json) (q : String) (transport : Request → AxiosOutcome),
          JobSearchTool.safeParse input = Except.ok q →
          (JobSearchTool.mkRequest t q).url = JobSearchTool.resolveUrl f e
          ∧ JobSearchTool.call t input transport
            = Except.ok (JobSearchTool.respond t
                (transport (JobSearchTool.mkRequest t q)))) := by
  constructor
  · intro f e ho
    refine ⟨⟨true, N8NTool.resolveUrl f e, jsNullish f.N8N_API_KEY e.N8N_API_KEY,
      resolveTimeout f.N8N_TIMEOUT e.N8N_TIMEOUT⟩, ?_, rfl, ?_⟩
    · simp [N8NTool.construct, ho]
    · intro input wd wn tsReq tsExec transport hv
      exact ⟨rfl, n8n_call_valid _ input wd wn tsReq tsExec transport hv⟩
  · intro f e ho
    refine ⟨⟨true, JobSearchTool.resolveUrl f e, jsNullish f.N8N_API_KEY e.N8N_API_KEY,
      resolveTimeout f.N8N_TIMEOUT e.N8N_TIMEOUT⟩, ?_, rfl, ?_⟩
    · simp [JobSearchTool.construct, ho]
    · intro input q transport hv
      exact ⟨rfl, jobsearch_call_valid _ input q transport hv⟩

/-- Witness for C10: with override true and nothing configured, both
constructions succeed and store an `undefined` webhook URL. -/
theorem override_true_skips_endpoint_validation_witness :
    (∃ t, N8NTool.construct ⟨none, none, none, none, some true⟩ envEmpty
        = Except.ok t ∧ t.webhookUrl = none)
    ∧ (∃ t, JobSearchTool.construct ⟨none, none, none, none, some true⟩ envEmpty
        = Except.ok t ∧ t.webhookUrl = none) := by
  constructor
  · obtain ⟨t, h1, h2, _⟩ := override_true_skips_endpoint_validation.1
      ⟨none, none, none, none, some true⟩ envEmpty rfl
    exact ⟨t, h1, h2.trans rfl⟩
  · obtain ⟨t, h1, h2, _⟩ := override_true_skips_endpoint_validation.2
      ⟨none, none, none, none, some true⟩ envEmpty rfl
    exact ⟨t, h1, h2.trans rfl⟩
